import Mathlib

/-!
Shallow embedding of `src/service-manager.py`, a terminal dashboard that
tracks systemd user services: per-service status refresh, state-label
resolution, start/stop actions, and reconciliation of the tracked service
list against the configuration directory.

Python strings are modelled as `String`, Python dicts built by repeated
`status[k] = v` assignment as association lists with last-write-wins
lookup, and Python exceptions as `Except String`.
-/

/-- Split a character list at each occurrence of `sep`, the helper behind
the model of `str.splitlines`. -/
def splitCharAux (sep : Char) : List Char → List Char → List String
  | [], acc => [String.mk acc.reverse]
  | c :: cs, acc =>
    if c = sep then String.mk acc.reverse :: splitCharAux sep cs []
    else splitCharAux sep cs (c :: acc)

/-- Model of Python `str.splitlines` restricted to newline separators, the
only separator occurring in `systemctl show` output: the empty string
yields no lines, and a trailing newline does not produce a trailing empty
line. -/
def pySplitlines (s : String) : List String :=
  match s.toList with
  | [] => []
  | cs =>
    let parts := splitCharAux '\n' cs []
    if cs.getLast? = some '\n' then parts.dropLast else parts

/-- Model of Python `line.partition(sep)` for a one-character separator on
the character list of `line`: `none` when the separator does not occur
(Python returns `(line, "", "")`), otherwise the characters before and
after its first occurrence. -/
def partitionChar (sep : Char) : List Char → Option (List Char × List Char)
  | [] => none
  | c :: cs =>
    if c = sep then some ([], cs)
    else
      match partitionChar sep cs with
      | none => none
      | some (k, v) => some (c :: k, v)

/-- The instance `line.partition("=")` used on `systemctl show` lines. -/
def partitionEq (cs : List Char) : Option (List Char × List Char) :=
  partitionChar '=' cs

/-- Model of Python `f.rpartition(".")[0]`: everything before the last dot,
and the empty string when `f` has no dot. -/
def rpartitionDotHead (f : String) : String :=
  match partitionChar '.' f.toList.reverse with
  | none => ""
  | some (_, beforeRev) => String.mk beforeRev.reverse

/-- Model of Python `f.endswith(".service")`. -/
def endsWithService (f : String) : Bool :=
  List.isPrefixOf (".service".toList.reverse) f.toList.reverse

/-- Python dict with string keys and values, represented as the list of
assignments in program order. -/
abbrev Dict := List (String × String)

/-- Model of the Python dict assignment `d[k] = v`. -/
def Dict.set (d : Dict) (k v : String) : Dict := d ++ [(k, v)]

/-- Model of the Python dict lookup `d[k]`: the most recent assignment to
`k` wins; `none` models a `KeyError`. -/
def Dict.get? (d : Dict) (k : String) : Option String :=
  (d.reverse.find? (fun p => p.1 == k)).map (fun p => p.2)

/-- The class constant `Service.SUBSTATE_CHANGING`. -/
def SUBSTATE_CHANGING : String := "changing"

/-- The mutable fields that `Service.__init__` assigns on `self`. The class
never assigns a `filename` attribute; the unit name lives in `servicename`. -/
structure Service where
  name : String
  state : String
  substate : String
  servicename : String
  lastline : String
deriving DecidableEq, Repr

/-- Embedding of `Service.__init__(servicename)`: the field values a fresh
instance holds before its first refresh completes. -/
def Service.init (servicename : String) : Service :=
  { name := "Unknown service"
    state := ""
    substate := SUBSTATE_CHANGING
    servicename := servicename
    lastline := "__ no output __" }

/-- Embedding of `Service.set_data(name, substate, lastline)`: note that it
stores the empty string into `state` unconditionally. -/
def Service.set_data (s : Service) (name substate lastline : String) : Service :=
  { s with name := name, state := "", substate := substate, lastline := lastline }

/-- The `substate_map` dict literal of `Service.__get_substate_widget`,
mapping a substate to the rendered text and palette attribute. -/
def substate_map : List (String × String × String) :=
  [("running", "Running", "substate_running"),
   ("dead", "Dead", "substate_dead"),
   ("failed", "Failed", "substate_failed"),
   ("error", "Error", "substate_error"),
   (SUBSTATE_CHANGING, "......", "substate_changing")]

/-- The `state_map` dict literal of `Service.__get_substate_widget`. -/
def state_map : List (String × String × String) :=
  [("failed", "Failed", "substate_failed")]

/-- Embedding of `Service.__get_substate_widget(state, substate)`, reduced
to the (text, palette attribute) pair wrapped in the returned widget: first
the `substate_map` lookup, then the `state_map` fallback, then the
`("Unknown", "text")` default. -/
def get_substate_widget (state substate : String) : String × String :=
  match substate_map.find? (fun p => p.1 == substate) with
  | some p => p.2
  | none =>
    match state_map.find? (fun p => p.1 == state) with
    | some p => p.2
    | none => ("Unknown", "text")

/-- The state label a Service renders: `__gen_contents` builds the row with
`Service.__get_substate_widget(self.state, self.substate)`. -/
def Service.displayedLabel (s : Service) : String × String :=
  get_substate_widget s.state s.substate

example : get_substate_widget "" "running" = ("Running", "substate_running") := rfl
example : get_substate_widget "failed" "odd" = ("Failed", "substate_failed") := rfl
example : get_substate_widget "" "odd" = ("Unknown", "text") := rfl
example : get_substate_widget "failed" "changing" = ("......", "substate_changing") := rfl

/-- One iteration of the `for line in raw_status.decode().splitlines()` loop
body of `get_service_status`: `k, _, v = line.partition("=")` yields the
whole line as key and the empty string as value when the line has no `=`. -/
def parseShowLine (line : String) : String × String :=
  match partitionEq line.toList with
  | none => (line, "")
  | some (k, v) => (String.mk k, String.mk v)

/-- The dict update performed for one line of `systemctl show` output:
`status[k] = v` after `k, _, v = line.partition("=")`. -/
def showStep (d : Dict) (line : String) : Dict :=
  let kv := parseShowLine line
  d.set kv.1 kv.2

/-- The `systemctl show` parsing loop of `get_service_status`: fold the
per-line dict assignment over the decoded lines of the raw output. -/
def parseSupervisorShow (raw : String) : Dict :=
  (pySplitlines raw).foldl showStep []

/-- The opening-brace character, written by code point. -/
def lbrace : Char := Char.ofNat 123

/-- The closing-brace character, written by code point. -/
def rbrace : Char := Char.ofNat 125

/-- Whitespace skipping for the JSON model. -/
def skipWs : List Char → List Char
  | [] => []
  | c :: cs => if c = ' ' ∨ c = '\t' ∨ c = '\n' ∨ c = '\r' then skipWs cs else c :: cs

/-- Characters of a JSON string body up to the closing quote (no escape
sequences, which journalctl message fields in this model do not use). -/
def jStringBody : List Char → List Char → Option (String × List Char)
  | [], _ => none
  | c :: cs, acc => if c = '"' then some (String.mk acc.reverse, cs) else jStringBody cs (c :: acc)

/-- A JSON string literal after optional whitespace. -/
def parseJString (cs : List Char) : Option (String × List Char) :=
  match skipWs cs with
  | '"' :: rest => jStringBody rest []
  | _ => none

/-- One `"key": "value"` member of a JSON object. -/
def parsePair (cs : List Char) : Option ((String × String) × List Char) :=
  match parseJString cs with
  | none => none
  | some (k, rest) =>
    match skipWs rest with
    | ':' :: rest2 =>
      match parseJString rest2 with
      | none => none
      | some (v, rest3) => some ((k, v), rest3)
    | _ => none

/-- Comma-separated members of a JSON object, accumulated as dict
assignments (later duplicates win, as in Python `json.loads`). -/
def parsePairs : Nat → List Char → Dict → Option (Dict × List Char)
  | 0, _, _ => none
  | fuel + 1, cs, acc =>
    match parsePair cs with
    | none => none
    | some (kv, rest) =>
      let acc2 := acc.set kv.1 kv.2
      match skipWs rest with
      | ',' :: rest2 => parsePairs fuel rest2 acc2
      | rest2 => some (acc2, rest2)

/-- Model of Python `json.loads` restricted to one flat object with string
keys and string values, the shape `journalctl -o json` emits for a single
record; anything else is a `JSONDecodeError`. -/
def jsonLoadsFlat (raw : String) : Except String Dict :=
  match skipWs raw.toList with
  | [] => Except.error "JSONDecodeError"
  | c :: rest =>
    if c = lbrace then
      match skipWs rest with
      | [] => Except.error "JSONDecodeError"
      | c2 :: rest2 =>
        if c2 = rbrace then
          if (skipWs rest2).isEmpty then Except.ok [] else Except.error "JSONDecodeError"
        else
          match parsePairs (raw.length + 1) (c2 :: rest2) [] with
          | none => Except.error "JSONDecodeError"
          | some (d, rest3) =>
            match skipWs rest3 with
            | [] => Except.error "JSONDecodeError"
            | c3 :: rest4 =>
              if c3 = rbrace ∧ (skipWs rest4).isEmpty then Except.ok d
              else Except.error "JSONDecodeError"
    else Except.error "JSONDecodeError"

/-- The journal-tail branch of `get_service_status`: empty output yields the
sentinel; otherwise `json.loads(journal)["MESSAGE"]`, whose failures
(malformed record, missing key) propagate as exceptions. -/
def parseLogTail (journal : String) : Except String String :=
  if journal.length > 0 then
    match jsonLoadsFlat journal with
    | Except.error e => Except.error e
    | Except.ok j =>
      match j.get? "MESSAGE" with
      | some m => Except.ok m
      | none => Except.error "KeyError: MESSAGE"
  else Except.ok "__ no output __"

/-- Outcome of one `check_output` invocation: the decoded standard output,
or a failure of `asyncio.create_subprocess_shell` to spawn the command. -/
inductive QueryResult where
  | ok (out : String)
  | spawnFailure
deriving DecidableEq, Repr

/-- Embedding of `Service.get_service_status` given the outcomes of its two
`check_output` calls (`systemctl show` and `journalctl`): parse the show
output into a dict, then store the extracted last log line under
`"lastline"`. A spawn failure or a journal parse failure propagates. -/
def get_service_status (showQ journalQ : QueryResult) : Except String Dict :=
  match showQ with
  | QueryResult.spawnFailure => Except.error "SpawnError"
  | QueryResult.ok raw_status =>
    let status := parseSupervisorShow raw_status
    match journalQ with
    | QueryResult.spawnFailure => Except.error "SpawnError"
    | QueryResult.ok journal =>
      match parseLogTail journal with
      | Except.error e => Except.error e
      | Except.ok lastline => Except.ok (status.set "lastline" lastline)

/-- Lookup `d[k]` that models the `KeyError` Python raises on a missing
key. -/
def dictGetExn (d : Dict) (k : String) : Except String String :=
  match d.get? k with
  | some v => Except.ok v
  | none => Except.error ("KeyError: " ++ k)

/-- Embedding of `Service.__update_data`: query the status, read the four
keys in source order (the `ActiveState` value is bound but, like the
source, never passed on), and apply `set_data`. Any exception of the query
or of a missing key escapes this function uncaught. -/
def update_data (s : Service) (showQ journalQ : QueryResult) : Except String Service :=
  match get_service_status showQ journalQ with
  | Except.error e => Except.error e
  | Except.ok status =>
    match dictGetExn status "Description" with
    | Except.error e => Except.error e
    | Except.ok name =>
      match dictGetExn status "ActiveState" with
      | Except.error e => Except.error e
      | Except.ok _state =>
        match dictGetExn status "SubState" with
        | Except.error e => Except.error e
        | Except.ok substate =>
          match dictGetExn status "lastline" with
          | Except.error e => Except.error e
          | Except.ok lastline => Except.ok (s.set_data name substate lastline)

/-- Embedding of `Service.start(button)`. The first component is the state
of the instance when the call returns: the body runs synchronously and only
sets `substate` to `SUBSTATE_CHANGING` (and re-renders). The second
component is the command line that the task scheduled via
`asyncio.ensure_future(self.start_async())` issues strictly after `start`
has returned, so no external command result can precede the mutation. -/
def Service.start (s : Service) : Service × List (List String) :=
  ({ s with substate := SUBSTATE_CHANGING },
   [["systemctl", "--user", "start", s.servicename]])

/-- Embedding of `Service.stop(button)`, symmetric to `Service.start`. -/
def Service.stop (s : Service) : Service × List (List String) :=
  ({ s with substate := SUBSTATE_CHANGING },
   [["systemctl", "--user", "stop", s.servicename]])

/-- Attribute lookup modelling `s.filename` in
`ServiceList.__update_service_list`: neither `Service.__init__` nor any
other method ever assigns a `filename` attribute (the unit name is stored
in `servicename`), so the lookup raises `AttributeError` on every
instance. -/
def Service.filenameAttr (_ : Service) : Option String := none

/-- A configuration-directory snapshot: each entry is a name from
`listdir` paired with the result of `isfile` on it. -/
abbrev DirSnapshot := List (String × Bool)

/-- The list comprehension of `ServiceList.__update_service_list`: regular
files whose name ends in `.service`. -/
def listServiceFiles (dir : DirSnapshot) : List String :=
  (dir.filter (fun e => e.2 && endsWithService e.1)).map (fun e => e.1)

/-- The `for s in self.body` keep loop of `__update_service_list`: for each
tracked service, read `s.filename` (which raises `AttributeError`, see
`Service.filenameAttr`); were it to yield a value contained in the pending
key set, the service would be kept and its key removed. Returns the kept
services and the remaining keys. -/
def keepLoop : List Service → List String → Except String (List Service × List String)
  | [], files => Except.ok ([], files)
  | s :: rest, files =>
    match Service.filenameAttr s with
    | none => Except.error "AttributeError: filename"
    | some fn =>
      if fn ∈ files then
        match keepLoop rest (files.erase fn) with
        | Except.error e => Except.error e
        | Except.ok (kept, files2) => Except.ok (s :: kept, files2)
      else keepLoop rest files

/-- Embedding of `ServiceList.__update_service_list` on a directory
snapshot and the prior tracked list `self.body`: list the `.service`
files, strip the suffix with `rpartition`, deduplicate into a set, keep
tracked services whose `filename` attribute is among the keys, construct a
fresh `Service` for every remaining key, assert the count, and replace the
body. Exceptions (the `AttributeError` of the keep loop, the
`AssertionError`) propagate. -/
def update_service_list (body : List Service) (dir : DirSnapshot) :
    Except String (List Service) :=
  let files0 := ((listServiceFiles dir).map rpartitionDotHead).dedup
  let files_len := files0.length
  match keepLoop body files0 with
  | Except.error e => Except.error e
  | Except.ok (kept, remaining) =>
    let services := kept ++ remaining.map Service.init
    if services.length = files_len then Except.ok services
    else Except.error "AssertionError"

/-- A concrete journal record used to instantiate the log-tail claims. -/
def sampleRecord : String := "\x7b\"MESSAGE\": \"x\"\x7d"

/-- A concrete service as it stands right after a successful refresh, used
to instantiate the refresh claims. -/
def sampleRefreshed : Service :=
  Service.set_data (Service.init "w") "d" "running" "__ no output __"

/-! Helper lemmas, shared by the claim theorems below. -/

theorem partitionChar_eq_none (sep : Char) (cs : List Char) (h : sep ∉ cs) :
    partitionChar sep cs = none := by
  induction cs with
  | nil => rfl
  | cons c cs ih =>
    have hc : ¬ c = sep := by
      intro he
      exact h (by rw [he]; exact List.mem_cons_self _ _)
    have hrest : sep ∉ cs := fun hm => h (List.mem_cons_of_mem _ hm)
    simp only [partitionChar, if_neg hc, ih hrest]

theorem dict_get_set (d : Dict) (k v : String) :
    Dict.get? (Dict.set d k v) k = some v := by
  simp [Dict.get?, Dict.set, List.find?]

theorem update_data_state_empty (s : Service) (q1 q2 : QueryResult) (s' : Service)
    (h : update_data s q1 q2 = Except.ok s') : s'.state = "" := by
  unfold update_data at h
  repeat' split at h
  all_goals simp_all [Service.set_data]
  all_goals rw [← h]

theorem widget_eval (state substate : String) :
    get_substate_widget state substate =
      (if substate = "running" then ("Running", "substate_running")
       else if substate = "dead" then ("Dead", "substate_dead")
       else if substate = "failed" then ("Failed", "substate_failed")
       else if substate = "error" then ("Error", "substate_error")
       else if substate = "changing" then ("......", "substate_changing")
       else if state = "failed" then ("Failed", "substate_failed")
       else ("Unknown", "text")) := by
  have e : ∀ (a b : String), ¬ b = a → (a == b) = false :=
    fun a b h => beq_eq_false_iff_ne.mpr (fun he => h he.symm)
  unfold get_substate_widget substate_map state_map SUBSTATE_CHANGING
  by_cases h1 : substate = "running"
  · subst h1; simp [List.find?]
  by_cases h2 : substate = "dead"
  · subst h2; simp [List.find?]
  by_cases h3 : substate = "failed"
  · subst h3; simp [List.find?]
  by_cases h4 : substate = "error"
  · subst h4; simp [List.find?]
  by_cases h5 : substate = "changing"
  · subst h5; simp [List.find?]
  simp only [List.find?, e "running" substate h1, e "dead" substate h2,
    e "failed" substate h3, e "error" substate h4, e "changing" substate h5]
  by_cases h6 : state = "failed"
  · subst h6; simp [List.find?, h1, h2, h3, h4, h5]
  · simp [List.find?, e "failed" state h6, h1, h2, h3, h4, h5, h6]

/-! Claim theorems. -/

/-- C1: the claim says that for every configured-directory snapshot and
every prior tracked set, one reconciliation pass completes with the
tracked keys equal to the suffix-stripped `.service` base names. The code
refutes it: `__update_service_list` reads `s.filename` on each tracked
service, an attribute the `Service` class never assigns (the key lives in
`servicename`), so the pass raises `AttributeError` for every nonempty
prior tracked set instead of completing. -/
theorem reconcile_nonempty_body_attribute_error :
    update_service_list [Service.init "a"] [("a.service", true)]
      = Except.error "AttributeError: filename" := rfl

/-- C2 counterexample: a refresh whose status has the unrecognized
subState `weird` and activeState `failed` renders as Unknown, not as
Failed, because `set_data` stores the empty string into `state`. -/
theorem refresh_failed_activestate_displays_unknown :
    (update_data (Service.init "svc")
        (QueryResult.ok "Description=d\nActiveState=failed\nSubState=weird")
        (QueryResult.ok "")).map Service.displayedLabel
      = Except.ok ("Unknown", "text") ∧
    (("Unknown", "text") : String × String) ≠ ("Failed", "substate_failed") :=
  ⟨rfl, by decide⟩

/-- C2 as amended: for every completed refresh, the stored `state` is the
empty string (the queried ActiveState is discarded by `set_data`), and the
displayed label depends only on subState: running, dead, failed, error and
changing map to their labels and every other subState maps to Unknown; the
activeState-equals-failed fallback is never applied to a refresh result. -/
theorem display_after_refresh (s : Service) (q1 q2 : QueryResult) (s' : Service)
    (h : update_data s q1 q2 = Except.ok s') :
    s'.state = "" ∧
    Service.displayedLabel s' =
      (if s'.substate = "running" then ("Running", "substate_running")
       else if s'.substate = "dead" then ("Dead", "substate_dead")
       else if s'.substate = "failed" then ("Failed", "substate_failed")
       else if s'.substate = "error" then ("Error", "substate_error")
       else if s'.substate = "changing" then ("......", "substate_changing")
       else ("Unknown", "text")) := by
  have hst : s'.state = "" := update_data_state_empty s q1 q2 s' h
  refine ⟨hst, ?_⟩
  unfold Service.displayedLabel
  rw [hst, widget_eval]
  simp

/-- Witness for the amended C2 at a concrete refresh whose subState is
running. -/
theorem display_after_refresh_witness :
    sampleRefreshed.state = "" ∧
    Service.displayedLabel sampleRefreshed =
      (if sampleRefreshed.substate = "running" then ("Running", "substate_running")
       else if sampleRefreshed.substate = "dead" then ("Dead", "substate_dead")
       else if sampleRefreshed.substate = "failed" then ("Failed", "substate_failed")
       else if sampleRefreshed.substate = "error" then ("Error", "substate_error")
       else if sampleRefreshed.substate = "changing" then ("......", "substate_changing")
       else ("Unknown", "text")) :=
  display_after_refresh (Service.init "w")
    (QueryResult.ok "Description=d\nActiveState=failed\nSubState=running")
    (QueryResult.ok "") sampleRefreshed rfl

/-- C3 counterexample: the resolution function maps subState `changing`
(with activeState `failed`) to the changing marker, not to Failed as the
exhaustive table of the claim requires for a not-listed subState with
activeState failed. -/
theorem widget_changing_wins_over_failed_state :
    get_substate_widget "failed" "changing" = ("......", "substate_changing") ∧
    get_substate_widget "failed" "changing" ≠ ("Failed", "substate_failed") :=
  ⟨rfl, by decide⟩

/-- C3 as amended: the resolution table of `__get_substate_widget` with
the row the claim omitted: subState running, dead, failed, error map to
themselves, subState changing maps to the changing marker, any other
subState with activeState failed maps to Failed, and every remaining
combination maps to Unknown. -/
theorem get_substate_widget_table (state substate : String) :
    get_substate_widget state substate =
      (if substate = "running" then ("Running", "substate_running")
       else if substate = "dead" then ("Dead", "substate_dead")
       else if substate = "failed" then ("Failed", "substate_failed")
       else if substate = "error" then ("Error", "substate_error")
       else if substate = "changing" then ("......", "substate_changing")
       else if state = "failed" then ("Failed", "substate_failed")
       else ("Unknown", "text")) :=
  widget_eval state substate

/-- C4: the claim says a Service whose identity key survives a
reconciliation pass keeps its display fields unchanged. The code refutes
it at any input that has a keepable service: the keep loop reads
`s.filename`, which no `Service` instance defines, so the pass raises
`AttributeError` before any service can be kept. -/
theorem reconcile_kept_service_attribute_error :
    update_service_list
      [{ name := "svc b", state := "", substate := "running",
         servicename := "b", lastline := "recent log" }]
      [("b.service", true), ("c.service", true)]
      = Except.error "AttributeError: filename" := rfl

/-- C5: the claim says spawn failures and malformed query output are
caught at the refresh boundary and degrade the display. The code refutes
it: `__update_data` and `get_service_status` catch nothing, so a show
output without the Description key raises KeyError, a spawn failure
propagates, malformed journal JSON raises JSONDecodeError, and a journal
record without MESSAGE raises KeyError, each escaping the refresh. -/
theorem refresh_exceptions_escape :
    update_data (Service.init "x") (QueryResult.ok "") (QueryResult.ok "")
      = Except.error "KeyError: Description" ∧
    update_data (Service.init "x") QueryResult.spawnFailure (QueryResult.ok "")
      = Except.error "SpawnError" ∧
    update_data (Service.init "x")
      (QueryResult.ok "Description=d\nActiveState=a\nSubState=b")
      (QueryResult.ok "notjson")
      = Except.error "JSONDecodeError" ∧
    update_data (Service.init "x")
      (QueryResult.ok "Description=d\nActiveState=a\nSubState=b")
      (QueryResult.ok "\x7b\"OTHER\": \"y\"\x7d")
      = Except.error "KeyError: MESSAGE" :=
  ⟨rfl, rfl, rfl, rfl⟩

/-- C6: for a Service in any state, `start` and `stop` synchronously set
subState to changing and leave every other field unchanged; the external
systemctl command (second component) is only issued by the task scheduled
after the call body has completed, so the mutation precedes the command
and any result of it. -/
theorem start_stop_set_changing_synchronously (s : Service) :
    (Service.start s).1 = { s with substate := SUBSTATE_CHANGING } ∧
    (Service.start s).1.substate = SUBSTATE_CHANGING ∧
    (Service.start s).2 = [["systemctl", "--user", "start", s.servicename]] ∧
    (Service.stop s).1 = { s with substate := SUBSTATE_CHANGING } ∧
    (Service.stop s).1.substate = SUBSTATE_CHANGING ∧
    (Service.stop s).2 = [["systemctl", "--user", "stop", s.servicename]] :=
  ⟨rfl, rfl, rfl, rfl, rfl, rfl⟩

/-- C7: empty journal output yields the sentinel, and output that parses
to a record whose MESSAGE field holds `m` yields `m`. -/
theorem parseLogTail_sentinel_and_message (raw : String) (obj : Dict) (m : String) :
    parseLogTail "" = Except.ok "__ no output __" ∧
    (jsonLoadsFlat raw = Except.ok obj → Dict.get? obj "MESSAGE" = some m →
      parseLogTail raw = Except.ok m) := by
  constructor
  · rfl
  · intro hj hm
    have hraw : raw.length > 0 := by
      rcases Nat.eq_zero_or_pos raw.length with h0 | hpos
      · exfalso
        have hdata : raw.toList = [] := by
          have hl : raw.data.length = 0 := h0
          simpa [String.toList] using List.length_eq_zero.mp hl
        unfold jsonLoadsFlat at hj
        rw [hdata] at hj
        simp [skipWs] at hj
      · exact hpos
    unfold parseLogTail
    rw [if_pos hraw, hj]
    simp [hm]

/-- Witness for C7 at the empty output and at a concrete record with
MESSAGE x. -/
theorem parseLogTail_sentinel_and_message_witness :
    parseLogTail "" = Except.ok "__ no output __" ∧
    parseLogTail sampleRecord = Except.ok "x" :=
  ⟨(parseLogTail_sentinel_and_message "" [] "").1,
   (parseLogTail_sentinel_and_message sampleRecord [("MESSAGE", "x")] "x").2 rfl rfl⟩

/-- C8: the stored `state` field (the queried ActiveState) is the empty
string after construction, after every `set_data`, and after every
completed refresh; consequently, for any service whose `state` is empty,
an unrecognized subState renders Unknown, i.e. the activeState-based
resolution branch is never taken for a live rendered state. -/
theorem activestate_always_empty :
    (∀ n, (Service.init n).state = "") ∧
    (∀ s name substate lastline, (Service.set_data s name substate lastline).state = "") ∧
    (∀ s q1 q2 s', update_data s q1 q2 = Except.ok s' → s'.state = "") ∧
    (∀ s : Service, s.state = "" →
      s.substate ∉ ["running", "dead", "failed", "error", "changing"] →
      Service.displayedLabel s = ("Unknown", "text")) := by
  refine ⟨fun n => rfl, fun s name substate lastline => rfl,
    fun s q1 q2 s' h => update_data_state_empty s q1 q2 s' h, ?_⟩
  intro s hst hsub
  unfold Service.displayedLabel
  rw [hst, widget_eval]
  simp only [List.mem_cons, List.not_mem_nil, or_false, not_or] at hsub
  obtain ⟨n1, n2, n3, n4, n5⟩ := hsub
  simp [n1, n2, n3, n4, n5]

/-- Witness for C8 at a concrete refresh and at a concrete service with an
unrecognized subState. -/
theorem activestate_always_empty_witness :
    ((Service.init "w").set_data "d" "b" "__ no output __").state = "" ∧
    Service.displayedLabel (Service.set_data (Service.init "a") "n" "weird" "l")
      = ("Unknown", "text") :=
  ⟨activestate_always_empty.2.2.1 (Service.init "w")
      (QueryResult.ok "Description=d\nActiveState=a\nSubState=b") (QueryResult.ok "")
      ((Service.init "w").set_data "d" "b" "__ no output __") rfl,
   activestate_always_empty.2.2.2 (Service.set_data (Service.init "a") "n" "weird" "l")
      rfl (by decide)⟩

/-- C9: a show-output line with no equals sign, the empty line included,
parses to the whole line as key and the empty string as value, the loop
step stores exactly that entry in the status dict, and looking the line up
afterwards finds the empty string: such lines are neither skipped nor a
parse error. -/
theorem show_line_without_equals (line : String) (d : Dict)
    (h : '=' ∉ line.toList) :
    parseShowLine line = (line, "") ∧
    showStep d line = Dict.set d line "" ∧
    Dict.get? (showStep d line) line = some "" := by
  have hp : partitionEq line.toList = none := partitionChar_eq_none '=' line.toList h
  have h1 : parseShowLine line = (line, "") := by
    unfold parseShowLine partitionEq at *
    rw [hp]
  refine ⟨h1, ?_, ?_⟩
  · unfold showStep
    rw [h1]
  · unfold showStep
    rw [h1]
    exact dict_get_set d line ""

/-- Witness for C9 at the empty line and the empty status dict. -/
theorem show_line_without_equals_witness :
    ('=' ∉ "".toList) ∧
    (parseShowLine "" = ("", "") ∧
     showStep [] "" = Dict.set [] "" "" ∧
     Dict.get? (showStep [] "") "" = some "") :=
  ⟨by decide, show_line_without_equals "" [] (by decide)⟩

/-- C10: a freshly constructed Service has displayName Unknown service,
last log line the no-output sentinel, empty activeState, and subState
changing, before any refresh has run. -/
theorem service_init_defaults (servicename : String) :
    Service.init servicename =
      { name := "Unknown service", state := "", substate := SUBSTATE_CHANGING,
        servicename := servicename, lastline := "__ no output __" } ∧
    (Service.init servicename).substate = "changing" :=
  ⟨rfl, rfl⟩
